import Mathlib

/-!
Verification of the Google Drive folder-resolution and caching subsystem of
this repository (packages/components/nodes/tools/GoogleDrive).

The TypeScript source is shallowly embedded: the process-wide `folderCache`
Map becomes an explicit association-list state threaded through the cache
operations, `Date.now()` becomes an explicit `now : Nat` argument, and the
remote Drive API becomes an explicit oracle / world parameter.  Machine
details that no claim depends on (URL percent-encoding, pageSize / fields
request parameters, JSON serialisation) are abstracted, but every branch and
every string template of the embedded functions follows the source.
-/

namespace GoogleDriveSpec

/-- The single-quote character used by the Drive query language. -/
def sqChar : Char := Char.ofNat 39

/-- The backslash character used to escape quotes in query literals. -/
def bsChar : Char := Char.ofNat 92

/-- Single quote as a one-character string. -/
def sq : String := String.mk [sqChar]

/-- Backslash as a one-character string. -/
def bs : String := String.mk [bsChar]

/-! ## Folder cache (google-drive-utils.ts)

`interface FolderCache`, `interface CacheEntry`, the module-level
`folderCache : Map<string, CacheEntry>` and the functions
`hashAccessToken`, `createCacheKey`, `getCacheEntry`, `setCacheEntry`,
`clearExpiredCache`.  `Date` values are modelled as `Nat` timestamps. -/

/-- `interface FolderCache` — the cached folder identity record. -/
structure FolderCache where
  id : String
  name : String
  parentId : Option String
  path : String
  lastUpdated : Nat
deriving DecidableEq

/-- `interface CacheEntry` — a `FolderCache` wrapped with the owner token
hash and the absolute expiry timestamp. -/
structure CacheEntry where
  data : FolderCache
  accessTokenHash : String
  expiresAt : Nat
deriving DecidableEq

/-- The state of the module-level `folderCache : Map<string, CacheEntry>`,
as an association list in insertion order. -/
abbrev CacheState := List (String × CacheEntry)

/-- `folderCache.get(k)` — first (and, in states produced by `Map.set`,
only) entry stored under key `k`. -/
def mapGet (m : CacheState) (k : String) : Option CacheEntry :=
  (m.find? (fun p => p.1 == k)).map (fun p => p.2)

/-- `folderCache.delete(k)`. -/
def mapDelete (m : CacheState) (k : String) : CacheState :=
  m.filter (fun p => p.1 != k)

/-- `folderCache.set(k, v)` — JS `Map.set` updates an existing key in place
and otherwise appends. -/
def mapSet (m : CacheState) (k : String) (v : CacheEntry) : CacheState :=
  match m with
  | [] => [(k, v)]
  | p :: rest => if p.1 == k then (k, v) :: rest else p :: mapSet rest k v

/-- `const CACHE_EXPIRY = 3600000` (one hour, in milliseconds). -/
def CACHE_EXPIRY : Nat := 3600000

/-- `hashAccessToken` — `accessToken.slice(-8)`: the last 8 characters of
the token (the whole token when it is shorter). -/
def hashAccessToken (accessToken : String) : String :=
  String.mk (accessToken.data.drop (accessToken.data.length - 8))

/-- `createCacheKey` — `` `${hashAccessToken(accessToken)}:${folderId}` ``. -/
def createCacheKey (accessToken folderId : String) : String :=
  hashAccessToken accessToken ++ ":" ++ folderId

/-- `getCacheEntry` — returns the cached `FolderCache` for the key, or
`null`; an expired or token-hash-mismatched entry is deleted and treated as
absent.  The pair is (returned value, cache state after the call). -/
def getCacheEntry (c : CacheState) (now : Nat) (accessToken folderId : String) :
    Option FolderCache × CacheState :=
  let key := createCacheKey accessToken folderId
  match mapGet c key with
  | none => (none, c)
  | some entry =>
    if now > entry.expiresAt then (none, mapDelete c key)
    else if entry.accessTokenHash ≠ hashAccessToken accessToken then (none, mapDelete c key)
    else (some entry.data, c)

/-- `setCacheEntry` — stores the folder data under the token-hash-prefixed
key with `expiresAt = Date.now() + CACHE_EXPIRY`. -/
def setCacheEntry (c : CacheState) (now : Nat) (accessToken folderId : String)
    (folderData : FolderCache) : CacheState :=
  mapSet c (createCacheKey accessToken folderId)
    ⟨folderData, hashAccessToken accessToken, now + CACHE_EXPIRY⟩

/-- `clearExpiredCache` — deletes every entry with `now > entry.expiresAt`. -/
def clearExpiredCache (c : CacheState) (now : Nat) : CacheState :=
  c.filter (fun p => !(now > p.2.expiresAt))

/-! ### Association-list lemmas -/

theorem mapGet_cons (p : String × CacheEntry) (rest : CacheState) (k : String) :
    mapGet (p :: rest) k = if p.1 = k then some p.2 else mapGet rest k := by
  by_cases h : p.1 = k
  · simp [mapGet, List.find?, h]
  · have hb : (p.1 == k) = false := by simp [h]
    simp [mapGet, List.find?, h, hb]

theorem mapSet_cons (p : String × CacheEntry) (rest : CacheState) (k : String) (v : CacheEntry) :
    mapSet (p :: rest) k v = if p.1 = k then (k, v) :: rest else p :: mapSet rest k v := by
  by_cases h : p.1 = k <;> simp [mapSet, h]

theorem mapDelete_cons (p : String × CacheEntry) (rest : CacheState) (k : String) :
    mapDelete (p :: rest) k = if p.1 = k then mapDelete rest k else p :: mapDelete rest k := by
  by_cases h : p.1 = k <;> simp [mapDelete, h]

theorem mapGet_mapSet_self (m : CacheState) (k : String) (v : CacheEntry) :
    mapGet (mapSet m k v) k = some v := by
  induction m with
  | nil => simp [mapSet, mapGet, List.find?]
  | cons p rest ih =>
    rw [mapSet_cons]
    by_cases h : p.1 = k
    · simp [h, mapGet_cons]
    · rw [if_neg h, mapGet_cons, if_neg h]
      exact ih

theorem mapGet_mapSet_ne (m : CacheState) (k k' : String) (v : CacheEntry)
    (h : k' ≠ k) : mapGet (mapSet m k v) k' = mapGet m k' := by
  induction m with
  | nil =>
    have hb : (k == k') = false := by simp [Ne.symm h]
    simp [mapSet, mapGet, List.find?, hb]
  | cons p rest ih =>
    rw [mapSet_cons]
    by_cases hp : p.1 = k
    · rw [if_pos hp, mapGet_cons, mapGet_cons, hp]
      simp [Ne.symm h]
    · rw [if_neg hp, mapGet_cons, mapGet_cons, ih]

theorem mapGet_mapDelete_self (m : CacheState) (k : String) :
    mapGet (mapDelete m k) k = none := by
  induction m with
  | nil => simp [mapDelete, mapGet]
  | cons p rest ih =>
    rw [mapDelete_cons]
    by_cases h : p.1 = k
    · rw [if_pos h]; exact ih
    · rw [if_neg h, mapGet_cons, if_neg h]; exact ih

theorem mem_of_mapGet_eq_some (m : CacheState) (k : String) (e : CacheEntry)
    (h : mapGet m k = some e) : (k, e) ∈ m := by
  induction m with
  | nil => simp [mapGet] at h
  | cons p rest ih =>
    rw [mapGet_cons] at h
    by_cases hp : p.1 = k
    · rw [if_pos hp] at h
      have : p = (k, e) := by
        cases p with
        | mk a b =>
          simp only [Option.some.injEq] at h
          simp_all
      exact this ▸ List.mem_cons_self _ _
    · rw [if_neg hp] at h
      exact List.mem_cons_of_mem _ (ih h)

theorem mem_mapSet (m : CacheState) (k : String) (v : CacheEntry) (p : String × CacheEntry)
    (h : p ∈ mapSet m k v) : p = (k, v) ∨ p ∈ m := by
  induction m with
  | nil => simpa [mapSet] using h
  | cons q rest ih =>
    rw [mapSet_cons] at h
    by_cases hq : q.1 = k
    · rw [if_pos hq] at h
      rcases List.mem_cons.mp h with h | h
      · exact Or.inl h
      · exact Or.inr (List.mem_cons_of_mem _ h)
    · rw [if_neg hq] at h
      rcases List.mem_cons.mp h with h | h
      · exact Or.inr (h ▸ List.mem_cons_self _ _)
      · rcases ih h with h | h
        · exact Or.inl h
        · exact Or.inr (List.mem_cons_of_mem _ h)

theorem mem_mapDelete (m : CacheState) (k : String) (p : String × CacheEntry)
    (h : p ∈ mapDelete m k) : p ∈ m :=
  List.mem_of_mem_filter h

theorem mem_clearExpiredCache (m : CacheState) (now : Nat) (p : String × CacheEntry)
    (h : p ∈ clearExpiredCache m now) : p ∈ m :=
  List.mem_of_mem_filter h

/-- The cache state left behind by `getCacheEntry` is either the input state
or the input state with the looked-up key deleted. -/
theorem getCacheEntry_snd (c : CacheState) (now : Nat) (accessToken folderId : String) :
    (getCacheEntry c now accessToken folderId).2 = c ∨
    (getCacheEntry c now accessToken folderId).2 =
      mapDelete c (createCacheKey accessToken folderId) := by
  cases hm : mapGet c (createCacheKey accessToken folderId) with
  | none => exact Or.inl (by simp [getCacheEntry, hm])
  | some entry =>
    by_cases h1 : now > entry.expiresAt
    · exact Or.inr (by simp [getCacheEntry, hm, h1])
    · by_cases h2 : entry.accessTokenHash = hashAccessToken accessToken
      · exact Or.inl (by simp [getCacheEntry, hm, h1, h2])
      · exact Or.inr (by simp [getCacheEntry, hm, h1, h2])

/-- Keys built from the same folder id but different token hashes differ:
`hash ++ ":" ++ F` is injective in `hash` for fixed `F`. -/
theorem createCacheKey_ne_of_hash_ne (tokenA tokenB F : String)
    (h : hashAccessToken tokenA ≠ hashAccessToken tokenB) :
    createCacheKey tokenA F ≠ createCacheKey tokenB F := by
  intro hk
  apply h
  have hd : (hashAccessToken tokenA).data ++ (":" ++ F).data
      = (hashAccessToken tokenB).data ++ (":" ++ F).data := by
    have := congrArg String.data hk
    simpa [createCacheKey, String.append_assoc] using this
  have : (hashAccessToken tokenA).data = (hashAccessToken tokenB).data :=
    List.append_cancel_right hd
  cases hA : hashAccessToken tokenA
  cases hB : hashAccessToken tokenB
  simp_all

/-! ### Cache claims -/

/-- A concrete folder record used by witnesses and counterexamples. -/
def wFolder : FolderCache := ⟨"f1", "Projects", none, "Projects", 0⟩

/-- C1: for tokens `tokenA`, `tokenB` whose fingerprints (`hashAccessToken`)
differ, and any folder id `F`: after `setCacheEntry(tokenA, F, idn)` (into a
cache with no entry under `tokenB`'s key), `getCacheEntry(tokenB, F)` returns
`null`, even while the entry for `tokenA` is present and unexpired
(`getCacheEntry(tokenA, F)` still returns it). -/
theorem getCacheEntry_token_isolation
    (c : CacheState) (tokenA tokenB F : String) (idn : FolderCache) (t u : Nat)
    (hdiff : hashAccessToken tokenA ≠ hashAccessToken tokenB)
    (hB : mapGet c (createCacheKey tokenB F) = none) :
    (getCacheEntry (setCacheEntry c t tokenA F idn) u tokenB F).1 = none ∧
    (u ≤ t + CACHE_EXPIRY →
      (getCacheEntry (setCacheEntry c t tokenA F idn) u tokenA F).1 = some idn) := by
  have hkey : createCacheKey tokenB F ≠ createCacheKey tokenA F :=
    createCacheKey_ne_of_hash_ne tokenB tokenA F (Ne.symm hdiff)
  constructor
  · have hget : mapGet (setCacheEntry c t tokenA F idn) (createCacheKey tokenB F) = none := by
      rw [setCacheEntry, mapGet_mapSet_ne _ _ _ _ hkey]
      exact hB
    simp [getCacheEntry, hget]
  · intro hu
    have hget : mapGet (setCacheEntry c t tokenA F idn) (createCacheKey tokenA F)
        = some ⟨idn, hashAccessToken tokenA, t + CACHE_EXPIRY⟩ := by
      rw [setCacheEntry]
      exact mapGet_mapSet_self _ _ _
    have hexp : ¬ u > t + CACHE_EXPIRY := Nat.not_lt.mpr hu
    simp [getCacheEntry, hget, hexp]

/-- Witness for C1 at concrete tokens "A", "B" (fingerprints "A" ≠ "B"). -/
theorem getCacheEntry_token_isolation_witness :
    (getCacheEntry (setCacheEntry [] 0 "A" "f1" wFolder) 10 "B" "f1").1 = none ∧
    (10 ≤ 0 + CACHE_EXPIRY →
      (getCacheEntry (setCacheEntry [] 0 "A" "f1" wFolder) 10 "A" "f1").1 = some wFolder) :=
  getCacheEntry_token_isolation [] "A" "B" "f1" wFolder 0 10 (by decide) (by decide)

/-- C2: an entry whose `expiresAt` lies strictly in the past at lookup time
is reported absent by `getCacheEntry` and deleted from the cache by that
same lookup; moreover no `getCacheEntry` call ever returns an entry past
its expiry. -/
theorem getCacheEntry_expired
    (c : CacheState) (now : Nat) (token F : String) (e : CacheEntry)
    (hfound : mapGet c (createCacheKey token F) = some e)
    (hexp : e.expiresAt < now) :
    (getCacheEntry c now token F).1 = none ∧
    mapGet (getCacheEntry c now token F).2 (createCacheKey token F) = none ∧
    (∀ (c2 : CacheState) (n2 : Nat) (t2 f2 : String) (d : FolderCache),
      (getCacheEntry c2 n2 t2 f2).1 = some d →
      ∃ e2, mapGet c2 (createCacheKey t2 f2) = some e2 ∧ e2.data = d ∧ n2 ≤ e2.expiresAt) := by
  have hgt : now > e.expiresAt := hexp
  refine ⟨by simp [getCacheEntry, hfound, hgt], ?_, ?_⟩
  · have h2 : (getCacheEntry c now token F).2 = mapDelete c (createCacheKey token F) := by
      simp [getCacheEntry, hfound, hgt]
    rw [h2]
    exact mapGet_mapDelete_self _ _
  · intro c2 n2 t2 f2 d hd
    cases hm : mapGet c2 (createCacheKey t2 f2) with
    | none => simp [getCacheEntry, hm] at hd
    | some e2 =>
      by_cases h1 : n2 > e2.expiresAt
      · simp [getCacheEntry, hm, h1] at hd
      · by_cases h2 : e2.accessTokenHash = hashAccessToken t2
        · refine ⟨e2, rfl, ?_, Nat.not_lt.mp h1⟩
          simp [getCacheEntry, hm, h1, h2] at hd
          exact hd
        · simp [getCacheEntry, hm, h1, h2] at hd

/-- Witness for C2 at a concrete one-entry cache whose entry expired at 5,
looked up at time 6. -/
theorem getCacheEntry_expired_witness :
    (getCacheEntry [(createCacheKey "A" "f1", ⟨wFolder, hashAccessToken "A", 5⟩)] 6 "A" "f1").1
        = none ∧
    mapGet (getCacheEntry [(createCacheKey "A" "f1", ⟨wFolder, hashAccessToken "A", 5⟩)]
        6 "A" "f1").2 (createCacheKey "A" "f1") = none ∧
    (∀ (c2 : CacheState) (n2 : Nat) (t2 f2 : String) (d : FolderCache),
      (getCacheEntry c2 n2 t2 f2).1 = some d →
      ∃ e2, mapGet c2 (createCacheKey t2 f2) = some e2 ∧ e2.data = d ∧ n2 ≤ e2.expiresAt) :=
  getCacheEntry_expired [(createCacheKey "A" "f1", ⟨wFolder, hashAccessToken "A", 5⟩)]
    6 "A" "f1" ⟨wFolder, hashAccessToken "A", 5⟩ (by decide) (by decide)

/-! ### Reachable cache states (claim C10) -/

/-- Cache states reachable from the initially empty `folderCache` by the
exported operations `setCacheEntry`, `getCacheEntry`, `clearExpiredCache`. -/
inductive ReachableCache : CacheState → Prop where
  | empty : ReachableCache []
  | set (c : CacheState) (now : Nat) (token folderId : String) (d : FolderCache) :
      ReachableCache c → ReachableCache (setCacheEntry c now token folderId d)
  | get (c : CacheState) (now : Nat) (token folderId : String) :
      ReachableCache c → ReachableCache ((getCacheEntry c now token folderId).2)
  | sweep (c : CacheState) (now : Nat) :
      ReachableCache c → ReachableCache (clearExpiredCache c now)

/-- Every stored entry was written by `setCacheEntry`: its key is
`hashAccessToken token ++ ":" ++ folderId` for the storing token and folder
id, and its `accessTokenHash` is that token's hash. -/
def CacheKeyInv (c : CacheState) : Prop :=
  ∀ p ∈ c, ∃ token folderId, p.1 = createCacheKey token folderId ∧
    p.2.accessTokenHash = hashAccessToken token

/-- C10 counterexample: the fingerprint-mismatch eviction branch of
`getCacheEntry` IS reachable.  Token hashes may contain a colon and vary in
length, so two distinct (token, folderId) pairs can collide on one cache
key: storing under token "ab:cd" (hash "ab:cd") and folder id "x" produces
key "ab:cd:x", which a lookup under token "ab" (hash "ab") and folder id
"cd:x" also computes.  The lookup finds a present, unexpired entry whose
stored hash differs from the looked-up token's hash, and the mismatch
branch evicts it. -/
theorem cache_fingerprint_branch_reachable :
    createCacheKey "ab" "cd:x" = createCacheKey "ab:cd" "x" ∧
    mapGet (setCacheEntry [] 0 "ab:cd" "x" wFolder) (createCacheKey "ab" "cd:x")
      = some ⟨wFolder, "ab:cd", CACHE_EXPIRY⟩ ∧
    ¬ ((0 : Nat) > CACHE_EXPIRY) ∧
    hashAccessToken "ab" ≠ "ab:cd" ∧
    (getCacheEntry (setCacheEntry [] 0 "ab:cd" "x" wFolder) 0 "ab" "cd:x").1 = none ∧
    (getCacheEntry (setCacheEntry [] 0 "ab:cd" "x" wFolder) 0 "ab" "cd:x").2 = [] := by
  refine ⟨by decide, by decide, by decide, by decide, by decide, by decide⟩

/-- C10 (amended): in every reachable cache state each stored entry's key
decomposes as the storing token's hash, a colon and the folder id, with
`accessTokenHash` equal to that hash (`CacheKeyInv`); this does not make the
mismatch branch of `getCacheEntry` unreachable, because distinct token/folder
pairs can collide on the same key string. -/
theorem reachable_cache_key_inv (c : CacheState) (h : ReachableCache c) :
    CacheKeyInv c := by
  induction h with
  | empty => intro p hp; simp at hp
  | set c now token folderId d _ ih =>
    intro p hp
    rcases mem_mapSet c (createCacheKey token folderId) _ p hp with h | h
    · exact ⟨token, folderId, by rw [h], by rw [h]⟩
    · exact ih p h
  | get c now token folderId _ ih =>
    intro p hp
    rcases getCacheEntry_snd c now token folderId with h2 | h2
    · exact ih p (h2 ▸ hp)
    · exact ih p (mem_mapDelete c _ p (h2 ▸ hp))
  | sweep c now _ ih =>
    intro p hp
    exact ih p (mem_clearExpiredCache c now p hp)

/-- Witness for the amended C10 at the concrete reachable state produced by
one `setCacheEntry` call. -/
theorem reachable_cache_key_inv_witness :
    CacheKeyInv (setCacheEntry [] 0 "A" "f1" wFolder) :=
  reachable_cache_key_inv _ (ReachableCache.set [] 0 "A" "f1" wFolder ReachableCache.empty)

/-! ## Folder path building (google-drive-utils.ts `buildFolderPath`)

The JS `while` loop is embedded with an explicit iteration budget `fuel`:
`none` means the loop was still running after `fuel` iterations (in
particular, `buildFolderPath` returning `none` for every budget is
non-termination of the source loop). -/

/-- The Drive folder mime type string used throughout the source. -/
def folderMimeType : String := "application/vnd.google-apps.folder"

/-- A Drive file/folder summary as returned by the `files` endpoint
(`id`, `name`, `mimeType`, `parents`; `parents` may be absent). -/
structure DriveFolder where
  id : String
  name : String
  mimeType : String
  parents : Option (List String)
deriving DecidableEq

/-- `new Map(folders.map(f => [f.id, f]))` — later entries overwrite
earlier ones, so lookup finds the last list element with the given id. -/
def folderMapGet (folders : List DriveFolder) (id : String) : Option DriveFolder :=
  folders.reverse.find? (fun f => f.id == id)

/-- The loop break condition
`folder.name === 'My Drive' || !folder.parents || folder.parents.length === 0`. -/
def stopsAt (f : DriveFolder) : Bool :=
  f.name == "My Drive" || f.parents == none || f.parents == some []

/-- `currentId = folder.parents[0]` (only reached when `parents` is a
non-empty array). -/
def parentRef (f : DriveFolder) : String :=
  (f.parents.getD []).headD ""

/-- The `while (currentId && folderMap.has(currentId))` loop of
`buildFolderPath`; `path` is the accumulated array (`unshift` prepends) and
`fuel` is the remaining iteration budget (`none` = budget exhausted while
the loop condition still held). -/
def buildFolderPathLoop (folders : List DriveFolder) :
    Nat → String → List String → Option (List String)
  | 0, currentId, path =>
    if currentId = "" then some path
    else
      match folderMapGet folders currentId with
      | none => some path
      | some _ => none
  | fuel + 1, currentId, path =>
    if currentId = "" then some path
    else
      match folderMapGet folders currentId with
      | none => some path
      | some folder =>
        if stopsAt folder then some path
        else buildFolderPathLoop folders fuel (parentRef folder) (folder.name :: path)

/-- `buildFolderPath(folderId, folders)` — `path.join('/')` of the loop's
result, with explicit iteration budget `fuel`. -/
def buildFolderPath (fuel : Nat) (folderId : String) (folders : List DriveFolder) :
    Option String :=
  (buildFolderPathLoop folders fuel folderId []).map (fun path => String.intercalate "/" path)

/-- A one-element folder list whose folder is its own parent. -/
def cyclicFolders : List DriveFolder := [⟨"a", "loop", folderMimeType, some ["a"]⟩]

/-- On the cyclic list the loop never terminates: it is still running after
any number of iterations. -/
theorem buildFolderPathLoop_cycle_none (fuel : Nat) :
    ∀ path : List String, buildFolderPathLoop cyclicFolders fuel "a" path = none := by
  induction fuel with
  | zero => intro path; rfl
  | succ fuel ih =>
    intro path
    have hstep : buildFolderPathLoop cyclicFolders (fuel + 1) "a" path
        = buildFolderPathLoop cyclicFolders fuel "a" ("loop" :: path) := by
      rfl
    rw [hstep]
    exact ih ("loop" :: path)

/-- C5 counterexample: on a list containing a self-parent folder, the
ancestor walk of `buildFolderPath` does not finish within `len(list)`
iterations (indeed, by `buildFolderPathLoop_cycle_none`, within any number
of iterations): the loop has no cycle guard. -/
theorem buildFolderPath_cycle_counterexample :
    buildFolderPath cyclicFolders.length "a" cyclicFolders = none := by decide

/-- If `folderMapGet` finds a folder, it is a list member with that id. -/
theorem folderMapGet_mem (folders : List DriveFolder) (id : String) (f : DriveFolder)
    (h : folderMapGet folders id = some f) : f ∈ folders ∧ f.id = id := by
  unfold folderMapGet at h
  have h1 := List.find?_some h
  have h2 := List.mem_of_find?_eq_some h
  exact ⟨List.mem_reverse.mp h2, by simpa using h1⟩

/-- Rank-based termination of the ancestor walk: if some rank `μ` on ids
strictly decreases along every in-list parent step, then a budget above the
start id's rank suffices. -/
theorem buildFolderPathLoop_isSome_of_rank
    (folders : List DriveFolder) (μ : String → Nat)
    (hrank : ∀ f ∈ folders, stopsAt f = false →
        (folderMapGet folders (parentRef f)).isSome = true → μ (parentRef f) < μ f.id) :
    ∀ (fuel : Nat) (currentId : String) (path : List String),
      ((folderMapGet folders currentId).isSome = true → μ currentId < fuel) →
      (buildFolderPathLoop folders fuel currentId path).isSome = true := by
  intro fuel
  induction fuel with
  | zero =>
    intro currentId path hμ
    by_cases hid : currentId = ""
    · simp [buildFolderPathLoop, hid]
    · cases hm : folderMapGet folders currentId with
      | none => simp [buildFolderPathLoop, hid, hm]
      | some f =>
        have := hμ (by simp [hm])
        omega
  | succ fuel ih =>
    intro currentId path hμ
    by_cases hid : currentId = ""
    · simp [buildFolderPathLoop, hid]
    · cases hm : folderMapGet folders currentId with
      | none => simp [buildFolderPathLoop, hid, hm]
      | some f =>
        by_cases hstop : stopsAt f = true
        · simp [buildFolderPathLoop, hid, hm, hstop]
        · have hstop' : stopsAt f = false := by
            cases hb : stopsAt f
            · rfl
            · exact absurd hb hstop
          have hrec : (buildFolderPathLoop folders fuel (parentRef f) (f.name :: path)).isSome
              = true := by
            apply ih
            intro hps
            have hmem := folderMapGet_mem folders currentId f hm
            have hlt := hrank f hmem.1 hstop' hps
            have hμf : μ currentId < fuel + 1 := hμ (by simp [hm])
            have hide : μ f.id = μ currentId := by rw [hmem.2]
            omega
          simpa [buildFolderPathLoop, hid, hm, hstop'] using hrec

/-- C5 (amended): for every folder id and folder list whose in-list
`parents[0]` links are acyclic — witnessed by a rank on ids that decreases
along each in-list parent step and is bounded by the list length —
`buildFolderPath` terminates within `len(list)` loop iterations.  (On cyclic
parent data the walk never terminates; see the counterexample.) -/
theorem buildFolderPath_terminates_of_rank
    (folders : List DriveFolder) (folderId : String) (μ : String → Nat)
    (hrank : ∀ f ∈ folders, stopsAt f = false →
        (folderMapGet folders (parentRef f)).isSome = true → μ (parentRef f) < μ f.id)
    (hbound : ∀ f ∈ folders, μ f.id < folders.length) :
    (buildFolderPath folders.length folderId folders).isSome = true := by
  have h : (buildFolderPathLoop folders folders.length folderId []).isSome = true := by
    apply buildFolderPathLoop_isSome_of_rank folders μ hrank
    intro hm
    cases hfm : folderMapGet folders folderId with
    | none => rw [hfm] at hm; simp at hm
    | some f =>
      have hmem := folderMapGet_mem folders folderId f hfm
      have := hbound f hmem.1
      rw [hmem.2] at this
      exact this
  simpa [buildFolderPath] using h

/-- An acyclic one-element folder list (parent outside the list). -/
def rankedFolders : List DriveFolder := [⟨"a", "A", folderMimeType, some ["r"]⟩]

/-- Witness for the amended C5 at a concrete acyclic list with the constant
rank 0. -/
theorem buildFolderPath_terminates_of_rank_witness :
    (buildFolderPath rankedFolders.length "a" rankedFolders).isSome = true :=
  buildFolderPath_terminates_of_rank rankedFolders "a" (fun _ => 0)
    (by decide) (by decide)

/-! ## Drive query construction (google-drive-utils.ts, smart-tools.ts)

The `q` filter expressions sent to the Drive `files` endpoint, built
exactly as in the source (string templates with single-quoted literals). -/

/-- `folderName.replace(/'/g, "\\'")` on the character list. -/
def escapeQueryValueAux : List Char → List Char
  | [] => []
  | c :: rest =>
    if c = sqChar then bsChar :: sqChar :: escapeQueryValueAux rest
    else c :: escapeQueryValueAux rest

/-- `folderName.replace(/'/g, "\\'")` — escape every single quote as
backslash-quote before embedding in a query literal. -/
def escapeQueryValue (s : String) : String :=
  String.mk (escapeQueryValueAux s.data)

/-- JS `query.includes(token)`. -/
def containsToken (query token : String) : Bool :=
  decide (token.data <:+: query.data)

/-- JS `s.trim()` — strip whitespace from both ends (character-list
implementation, so that terms evaluate by kernel reduction). -/
def trimChars (s : String) : String :=
  String.mk
    (((s.data.dropWhile (fun c => c.isWhitespace)).reverse.dropWhile
      (fun c => c.isWhitespace)).reverse)

/-- JS `s.toLowerCase()` (character-list implementation). -/
def toLowerStr (s : String) : String :=
  String.mk (s.data.map Char.toLower)

/-- JS `s.split(sep)` for a one-character separator. -/
def splitOnCharAux (sep : Char) : List Char → List Char → List String
  | [], acc => [String.mk acc.reverse]
  | c :: rest, acc =>
    if c = sep then String.mk acc.reverse :: splitOnCharAux sep rest []
    else splitOnCharAux sep rest (c :: acc)

/-- JS `s.split(sep)` for a one-character separator. -/
def splitOnChar (s : String) (sep : Char) : List String :=
  splitOnCharAux sep s.data []

/-- `addTrashedFilter(query, includeTrashed)` — appends `trashed=false`
(with an ` and ` connector for non-blank queries) unless the caller asked
for trashed items or the query already mentions `trashed`. -/
def addTrashedFilter (query : String) (includeTrashed : Bool) : String :=
  if includeTrashed then query
  else if !(containsToken query "trashed") then
    query ++ (if (trimChars query).length > 0 then " and " else "") ++ "trashed=false"
  else query

/-- `mimeType='application/vnd.google-apps.folder'` — the clause opening
every folder query in the source. -/
def folderMimeClause : String :=
  "mimeType=" ++ sq ++ folderMimeType ++ sq

/-- The `q` expression built by `findFolderByName` (google-drive-utils.ts):
name constraint on the escaped folder name, then the trashed filter. -/
def findFolderByNameQuery (folderName : String) (exactMatch includeTrashed : Bool) : String :=
  let escapedFolderName := escapeQueryValue folderName
  let baseQuery :=
    if exactMatch then folderMimeClause ++ " and name=" ++ sq ++ escapedFolderName ++ sq
    else folderMimeClause ++ " and name contains " ++ sq ++ escapedFolderName ++ sq
  addTrashedFilter baseQuery includeTrashed

/-- The `q` expression built by `searchInSharedFiles`
(smart-tools.ts, HierarchicalFolderNavigatorTool): note that
`params.parentFolderName` is embedded without escaping. -/
def searchInSharedFilesQuery (parentFolderName : Option String) : String :=
  let base := "sharedWithMe=true" ++ " and mimeType != " ++ sq ++ folderMimeType ++ sq
  match parentFolderName with
  | some n => base ++ " and name contains " ++ sq ++ n ++ sq
  | none => base

/-- Number of occurrences of a character in a string. -/
def countChar (s : String) (c : Char) : Nat :=
  s.data.count c

/-- The name `O'Brien` (single quote written via its character code). -/
def obrienName : String := "O" ++ sq ++ "Brien"

/-- C3: evaluation at the failing input.  `searchInSharedFiles` embeds the
folder name `O'Brien` into its filter expression without escaping: the sent
query carries the bare quote (5 quote characters — unbalanced single-quoted
literals — and no backslash), although `escapeQueryValue` would have
rewritten the name; by contrast `findFolderByName` does escape the same
name. -/
theorem searchInSharedFiles_unescaped_quote :
    searchInSharedFilesQuery (some obrienName)
      = "sharedWithMe=true and mimeType != " ++ sq ++ folderMimeType ++ sq
        ++ " and name contains " ++ sq ++ obrienName ++ sq ∧
    escapeQueryValue obrienName = "O" ++ bs ++ sq ++ "Brien" ∧
    escapeQueryValue obrienName ≠ obrienName ∧
    countChar (searchInSharedFilesQuery (some obrienName)) sqChar = 5 ∧
    countChar (searchInSharedFilesQuery (some obrienName)) bsChar = 0 ∧
    findFolderByNameQuery obrienName true false
      = folderMimeClause ++ " and name=" ++ sq ++ ("O" ++ bs ++ sq ++ "Brien") ++ sq
        ++ " and trashed=false" := by
  refine ⟨by decide, by decide, by decide, by decide, by decide, by decide⟩

/-! ## Folder search with fallback (google-drive-utils.ts)

`performPrimarySearch`, `performFallbackSearch`,
`searchFoldersWithFallback`.  The remote API is an oracle from the `q`
filter expression to either a thrown transport error (`Except.error`) or a
response (`Except.ok`, with an optional `files` array).  Each function also
returns the list of `q` expressions it sent. -/

/-- The remote `files` search endpoint: query string to thrown error or
response; `none` models a response body without a `files` field
(`responseData.files || []`). -/
abbrev DriveOracle := String → Except String (Option (List DriveFolder))

/-- The `{ files, searchMethod }` object returned by the search helpers. -/
structure SearchOutcome where
  files : List DriveFolder
  searchMethod : String
deriving DecidableEq

/-- The `q` expression built by `performPrimarySearch`. -/
def performPrimarySearchQuery (folderName parentConstraint : String)
    (exactMatch includeTrashed : Bool) : String :=
  let escapedFolderName := escapeQueryValue folderName
  let searchQuery :=
    if exactMatch then
      folderMimeClause ++ " and name=" ++ sq ++ escapedFolderName ++ sq ++ parentConstraint
    else
      folderMimeClause ++ " and name contains " ++ sq ++ escapedFolderName ++ sq ++ parentConstraint
  addTrashedFilter searchQuery includeTrashed

/-- `performPrimarySearch` — one request; `searchMethod` is `exact_match`
or `contains_match` according to `exactMatch`. -/
def performPrimarySearch (oracle : DriveOracle) (folderName parentConstraint : String)
    (exactMatch : Bool) (maxResults : Nat) (includeTrashed : Bool) :
    Except String SearchOutcome × List String :=
  let q := performPrimarySearchQuery folderName parentConstraint exactMatch includeTrashed
  ((oracle q).map
      (fun rd => ⟨rd.getD [], if exactMatch then "exact_match" else "contains_match"⟩),
   [q])

/-- The `q` expression built by `performFallbackSearch`
(`fullText contains`). -/
def performFallbackSearchQuery (folderName parentConstraint : String)
    (includeTrashed : Bool) : String :=
  addTrashedFilter
    (folderMimeClause ++ " and fullText contains " ++ sq ++ escapeQueryValue folderName ++ sq
      ++ parentConstraint)
    includeTrashed

/-- `performFallbackSearch` — one request tagged `fulltext_fuzzy`. -/
def performFallbackSearch (oracle : DriveOracle) (folderName parentConstraint : String)
    (maxResults : Nat) (includeTrashed : Bool) :
    Except String SearchOutcome × List String :=
  let q := performFallbackSearchQuery folderName parentConstraint includeTrashed
  ((oracle q).map (fun rd => ⟨rd.getD [], "fulltext_fuzzy"⟩), [q])

/-- `searchFoldersWithFallback` — primary search, then, exactly when the
primary search returned zero files, `exactMatch` is false and
`useFullTextSearch` is true, one fallback search whose result is returned. -/
def searchFoldersWithFallback (oracle : DriveOracle) (folderName parentConstraint : String)
    (maxResults : Nat) (exactMatch useFullTextSearch includeTrashed : Bool) :
    Except String SearchOutcome × List String :=
  match performPrimarySearch oracle folderName parentConstraint exactMatch maxResults
      includeTrashed with
  | (Except.error e, ops1) => (Except.error e, ops1)
  | (Except.ok primary, ops1) =>
    if primary.files.isEmpty && !exactMatch && useFullTextSearch then
      match performFallbackSearch oracle folderName parentConstraint maxResults includeTrashed with
      | (res, ops2) => (res, ops1 ++ ops2)
    else (Except.ok primary, ops1)

/-- C4: with `exactMatch = false`, fallback enabled and a primary search
returning zero matches, `searchFoldersWithFallback` issues exactly the
primary request followed by exactly one fallback request and returns the
fallback result, which is tagged `fulltext_fuzzy`; with `exactMatch = true`
it issues only the primary request — no fallback, whatever
`useFullTextSearch` and the primary result — and any returned outcome is
tagged `exact_match`. -/
theorem searchFoldersWithFallback_policy
    (oracle : DriveOracle) (folderName parentConstraint : String)
    (maxResults : Nat) (includeTrashed : Bool) (pr : SearchOutcome)
    (hprimary : (performPrimarySearch oracle folderName parentConstraint false maxResults
        includeTrashed).1 = Except.ok pr)
    (hempty : pr.files = []) :
    searchFoldersWithFallback oracle folderName parentConstraint maxResults false true
        includeTrashed
      = ((performFallbackSearch oracle folderName parentConstraint maxResults includeTrashed).1,
         [performPrimarySearchQuery folderName parentConstraint false includeTrashed,
          performFallbackSearchQuery folderName parentConstraint includeTrashed]) ∧
    (∀ out, (performFallbackSearch oracle folderName parentConstraint maxResults
        includeTrashed).1 = Except.ok out → out.searchMethod = "fulltext_fuzzy") ∧
    (∀ useFTS : Bool,
      searchFoldersWithFallback oracle folderName parentConstraint maxResults true useFTS
          includeTrashed
        = ((performPrimarySearch oracle folderName parentConstraint true maxResults
            includeTrashed).1,
           [performPrimarySearchQuery folderName parentConstraint true includeTrashed])) ∧
    (∀ out, (performPrimarySearch oracle folderName parentConstraint true maxResults
        includeTrashed).1 = Except.ok out → out.searchMethod = "exact_match") := by
  refine ⟨?_, ?_, ?_, ?_⟩
  · cases ho : oracle (performPrimarySearchQuery folderName parentConstraint false
        includeTrashed) with
    | error e => simp [performPrimarySearch, Except.map, ho] at hprimary
    | ok rd =>
      have hfe : ({ files := rd.getD [], searchMethod := "contains_match" } : SearchOutcome)
          = pr := by
        simp [performPrimarySearch, Except.map, ho] at hprimary
        exact hprimary
      have hrd : rd.getD [] = [] := by
        have := congrArg SearchOutcome.files hfe
        simpa [hempty] using this
      simp [searchFoldersWithFallback, performPrimarySearch, performFallbackSearch,
        Except.map, ho, hrd]
  · intro out hout
    cases ho : oracle (performFallbackSearchQuery folderName parentConstraint includeTrashed) with
    | error e => simp [performFallbackSearch, Except.map, ho] at hout
    | ok rd =>
      simp [performFallbackSearch, Except.map, ho] at hout
      rw [← hout]
  · intro useFTS
    cases ho : oracle (performPrimarySearchQuery folderName parentConstraint true
        includeTrashed) with
    | error e => simp [searchFoldersWithFallback, performPrimarySearch, Except.map, ho]
    | ok rd => simp [searchFoldersWithFallback, performPrimarySearch, Except.map, ho]
  · intro out hout
    cases ho : oracle (performPrimarySearchQuery folderName parentConstraint true
        includeTrashed) with
    | error e => simp [performPrimarySearch, Except.map, ho] at hout
    | ok rd =>
      simp [performPrimarySearch, Except.map, ho] at hout
      rw [← hout]

/-- Witness for C4 at an oracle whose every response is an empty file
list. -/
theorem searchFoldersWithFallback_policy_witness :
    searchFoldersWithFallback (fun _ => Except.ok (some [])) "Invoices" "" 10 false true false
      = ((performFallbackSearch (fun _ => Except.ok (some [])) "Invoices" "" 10 false).1,
         [performPrimarySearchQuery "Invoices" "" false false,
          performFallbackSearchQuery "Invoices" "" false]) ∧
    (∀ out, (performFallbackSearch (fun _ => Except.ok (some [])) "Invoices" "" 10 false).1
        = Except.ok out → out.searchMethod = "fulltext_fuzzy") ∧
    (∀ useFTS : Bool,
      searchFoldersWithFallback (fun _ => Except.ok (some [])) "Invoices" "" 10 true useFTS false
        = ((performPrimarySearch (fun _ => Except.ok (some [])) "Invoices" "" true 10 false).1,
           [performPrimarySearchQuery "Invoices" "" true false])) ∧
    (∀ out, (performPrimarySearch (fun _ => Except.ok (some [])) "Invoices" "" true 10 false).1
        = Except.ok out → out.searchMethod = "exact_match") :=
  searchFoldersWithFallback_policy (fun _ => Except.ok (some [])) "Invoices" "" 10 false
    ⟨[], "contains_match"⟩ rfl rfl

/-! ## Path resolution and creation (google-drive-utils.ts)

`resolveFolderPath`, `checkFolderExists`, `createFolderIfNotExists`,
`createFolderPath`.  The remote Drive state is modelled semantically: a
list of existing folders plus the outcome of create calls
(`none` = the create request failed or returned no id, in which case the
source functions return `null`).  Every remote interaction is logged as a
`DriveOp` so that claims can count search and create requests. -/

/-- A folder as known to the remote side: id, name and parent folder id. -/
structure RemoteFolder where
  id : String
  name : String
  parentId : String
deriving DecidableEq

/-- The remote Drive service: existing folders, and the id (if any) that a
folder-create request for (name, parentId) would return. -/
structure DriveWorld where
  folders : List RemoteFolder
  createResult : String → String → Option String

/-- A request issued to the remote API: a folder search
(`name='…' and '…' in parents`, pageSize 1) or a folder create POST. -/
inductive DriveOp where
  | search (folderName parentId : String)
  | create (folderName parentId : String)
deriving DecidableEq

/-- Whether an op is a create request. -/
def DriveOp.isCreate : DriveOp → Bool
  | .create _ _ => true
  | .search _ _ => false

/-- Semantics of the folder search query
`mimeType='folder' and name='<name>' and '<parentId>' in parents` with
`pageSize 1`: the first existing folder with that name and parent. -/
def remoteFindFolder (w : DriveWorld) (folderName parentId : String) : Option RemoteFolder :=
  w.folders.find? (fun f => f.name == folderName && f.parentId == parentId)

/-- `checkFolderExists(accessToken, folderName, parentId)` — one search
request; returns the matching folder or `null`. -/
def checkFolderExists (w : DriveWorld) (folderName parentId : String) :
    Option RemoteFolder × List DriveOp :=
  (remoteFindFolder w folderName parentId, [DriveOp.search folderName parentId])

/-- `createFolderIfNotExists(accessToken, folderName, parentId)` — search
first; when absent, POST a create request, which on success adds the new
folder to the remote state and returns its id, and on failure yields
`null`. -/
def createFolderIfNotExists (w : DriveWorld) (folderName parentId : String) :
    Option String × DriveWorld × List DriveOp :=
  match checkFolderExists w folderName parentId with
  | (some existing, ops1) => (some existing.id, w, ops1)
  | (none, ops1) =>
    match w.createResult folderName parentId with
    | some newId =>
      (some newId,
       ⟨w.folders ++ [⟨newId, folderName, parentId⟩], w.createResult⟩,
       ops1 ++ [DriveOp.create folderName parentId])
    | none => (none, w, ops1 ++ [DriveOp.create folderName parentId])

/-- `path || path.trim() === '' || path.toLowerCase() === 'root' ||
path.toLowerCase() === '/'` — the early-return test shared by
`resolveFolderPath` and `createFolderPath`. -/
def isRootPath (path : String) : Bool :=
  path == "" || trimChars path == "" || toLowerStr path == "root" || toLowerStr path == "/"

/-- `folderName.toLowerCase() === 'root' || folderName.toLowerCase() ===
'my drive'` — the per-segment root-alias test of both path loops. -/
def isRootAlias (folderName : String) : Bool :=
  toLowerStr folderName == "root" || toLowerStr folderName == "my drive"

/-- `path.split('/').filter((part) => part.trim().length > 0)`. -/
def splitPath (path : String) : List String :=
  (splitOnChar path (Char.ofNat 47)).filter (fun part => (trimChars part).length > 0)

/-- The `for (const folderName of pathParts)` loop of `resolveFolderPath`:
root aliases reset to root without a request; otherwise one exact-name
search under the current folder, failing the whole resolution when absent. -/
def resolveFolderPathLoop (w : DriveWorld) :
    List String → String → List DriveOp → Option String × List DriveOp
  | [], currentFolderId, ops => (some currentFolderId, ops)
  | folderName :: rest, currentFolderId, ops =>
    if isRootAlias folderName then resolveFolderPathLoop w rest "root" ops
    else
      match remoteFindFolder w folderName currentFolderId with
      | some f =>
        resolveFolderPathLoop w rest f.id (ops ++ [DriveOp.search folderName currentFolderId])
      | none => (none, ops ++ [DriveOp.search folderName currentFolderId])

/-- `resolveFolderPath(accessToken, path)` — root-like paths resolve to
`'root'` with no remote request; otherwise the segment loop. -/
def resolveFolderPath (w : DriveWorld) (path : String) : Option String × List DriveOp :=
  if isRootPath path then (some "root", [])
  else resolveFolderPathLoop w (splitPath path) "root" []

/-- The `for (const folderName of pathParts)` loop of `createFolderPath`:
root aliases reset to root; otherwise `checkFolderExists`, then on absence
`createFolderIfNotExists` (which searches again and then creates), aborting
with `null` when the create yields no id. -/
def createFolderPathLoop :
    List String → String → DriveWorld → List DriveOp →
    Option String × DriveWorld × List DriveOp
  | [], currentFolderId, w, ops => (some currentFolderId, w, ops)
  | folderName :: rest, currentFolderId, w, ops =>
    if isRootAlias folderName then createFolderPathLoop rest "root" w ops
    else
      match checkFolderExists w folderName currentFolderId with
      | (some existing, ops1) => createFolderPathLoop rest existing.id w (ops ++ ops1)
      | (none, ops1) =>
        match createFolderIfNotExists w folderName currentFolderId with
        | (some newId, w2, ops2) => createFolderPathLoop rest newId w2 (ops ++ ops1 ++ ops2)
        | (none, w2, ops2) => (none, w2, ops ++ ops1 ++ ops2)

/-- `createFolderPath(accessToken, path)`. -/
def createFolderPath (w : DriveWorld) (path : String) :
    Option String × DriveWorld × List DriveOp :=
  if isRootPath path then (some "root", w, [])
  else createFolderPathLoop (splitPath path) "root" w []

/-- C9: `resolveFolderPath` applied to the empty string, any blank string,
`"/"`, `"root"` or `"My Drive"` returns the root identifier and issues no
request to the remote query client. -/
theorem resolveFolderPath_root_aliases (w : DriveWorld) (s : String)
    (hs : trimChars s = "") :
    resolveFolderPath w "" = (some "root", []) ∧
    resolveFolderPath w s = (some "root", []) ∧
    resolveFolderPath w "/" = (some "root", []) ∧
    resolveFolderPath w "root" = (some "root", []) ∧
    resolveFolderPath w "My Drive" = (some "root", []) := by
  refine ⟨rfl, ?_, rfl, rfl, rfl⟩
  have hroot : isRootPath s = true := by
    simp [isRootPath, hs]
  simp [resolveFolderPath, hroot]

/-- Witness for C9 with the one-space blank string. -/
theorem resolveFolderPath_root_aliases_witness :
    resolveFolderPath ⟨[], fun _ _ => none⟩ "" = (some "root", []) ∧
    resolveFolderPath ⟨[], fun _ _ => none⟩ " " = (some "root", []) ∧
    resolveFolderPath ⟨[], fun _ _ => none⟩ "/" = (some "root", []) ∧
    resolveFolderPath ⟨[], fun _ _ => none⟩ "root" = (some "root", []) ∧
    resolveFolderPath ⟨[], fun _ _ => none⟩ "My Drive" = (some "root", []) :=
  resolveFolderPath_root_aliases ⟨[], fun _ _ => none⟩ " " rfl

/-- C6: when folder "A" exists under root, "B" does not exist under A, "C"
does not exist under B and the remote create calls succeed,
`createFolderPath("A/B/C")` issues exactly two create requests — "B" under
A's id and "C" under B's newly created id, in that order — and no create
request for "A", and returns C's new id. -/
theorem createFolderPath_creates_missing_segments
    (w : DriveWorld) (fA : RemoteFolder) (idB idC : String)
    (hA : remoteFindFolder w "A" "root" = some fA)
    (hB : remoteFindFolder w "B" fA.id = none)
    (hcB : w.createResult "B" fA.id = some idB)
    (hC : remoteFindFolder ⟨w.folders ++ [⟨idB, "B", fA.id⟩], w.createResult⟩ "C" idB = none)
    (hcC : w.createResult "C" idB = some idC) :
    (createFolderPath w "A/B/C").1 = some idC ∧
    ((createFolderPath w "A/B/C").2.2.filter DriveOp.isCreate)
      = [DriveOp.create "B" fA.id, DriveOp.create "C" idB] ∧
    (∀ p : String, DriveOp.create "A" p ∉ (createFolderPath w "A/B/C").2.2) := by
  have h0 : isRootPath "A/B/C" = false := rfl
  have hsplit : splitPath "A/B/C" = ["A", "B", "C"] := rfl
  have haAlias : isRootAlias "A" = false := rfl
  have hbAlias : isRootAlias "B" = false := rfl
  have hcAlias : isRootAlias "C" = false := rfl
  have hmain : createFolderPath w "A/B/C"
      = (some idC,
         ⟨(w.folders ++ [⟨idB, "B", fA.id⟩]) ++ [⟨idC, "C", idB⟩], w.createResult⟩,
         [DriveOp.search "A" "root",
          DriveOp.search "B" fA.id, DriveOp.search "B" fA.id, DriveOp.create "B" fA.id,
          DriveOp.search "C" idB, DriveOp.search "C" idB, DriveOp.create "C" idB]) := by
    simp [createFolderPath, h0, hsplit, createFolderPathLoop, haAlias, hbAlias, hcAlias,
      checkFolderExists, createFolderIfNotExists, hA, hB, hC, hcB, hcC]
  refine ⟨by rw [hmain], by rw [hmain]; rfl, ?_⟩
  intro p
  rw [hmain]
  simp [DriveOp.isCreate]

/-- A concrete remote world for the C6 witness: "A" exists under root; the
creates of "B" under A and "C" under B succeed. -/
def wC6 : DriveWorld :=
  ⟨[⟨"idA", "A", "root"⟩],
   fun n p =>
     if n == "B" && p == "idA" then some "idB"
     else if n == "C" && p == "idB" then some "idC" else none⟩

/-- Witness for C6 at the concrete world `wC6`. -/
theorem createFolderPath_creates_missing_segments_witness :
    (createFolderPath wC6 "A/B/C").1 = some "idC" ∧
    ((createFolderPath wC6 "A/B/C").2.2.filter DriveOp.isCreate)
      = [DriveOp.create "B" "idA", DriveOp.create "C" "idB"] ∧
    (∀ p : String, DriveOp.create "A" p ∉ (createFolderPath wC6 "A/B/C").2.2) :=
  createFolderPath_creates_missing_segments wC6 ⟨"idA", "A", "root"⟩ "idB" "idC"
    rfl rfl rfl rfl rfl

/-! ## SmartFolderCreatorTool (smart-folder-creator.ts), folderPath branch -/

/-- The result object `_call` builds when `params.folderPath` is given:
either the failure `{ success:false, error:'FOLDER_CREATION_FAILED',
folderPath, message }` or the success
`{ success:true, folderId, folderPath, message, alreadyExisted:false }`. -/
inductive CreatorPathResult where
  | failure (error folderPathEcho message : String)
  | success (folderId folderPathEcho message : String) (alreadyExisted : Bool)
deriving DecidableEq

/-- The `params.folderPath` branch of `SmartFolderCreatorTool._call`. -/
def smartFolderCreatorPathCall (w : DriveWorld) (folderPath : String) : CreatorPathResult :=
  match (createFolderPath w folderPath).1 with
  | none =>
    CreatorPathResult.failure "FOLDER_CREATION_FAILED" folderPath
      ("Could not create folder path: " ++ folderPath)
  | some folderId =>
    CreatorPathResult.success folderId folderPath "Folder path created successfully" false

/-- A world where every create fails: `createFolderPath "A/B"` fails at the
first segment with nothing created. -/
def wFailFirst : DriveWorld := ⟨[], fun _ _ => none⟩

/-- A world where creating "A" under root succeeds and every other create
fails: `createFolderPath "A/B"` fails at the second segment after actually
creating "A". -/
def wFailSecond : DriveWorld :=
  ⟨[], fun n p => if n == "A" && p == "root" then some "idA" else none⟩

/-- C7 counterexample: two executions of `createFolderPath "A/B"` that fail
at different segments with different partial progress (one creates nothing,
the other creates "A") both return bare `null`, and the
`SmartFolderCreatorTool` results are identical — the structured result
identifies neither the failing segment nor what was already created. -/
theorem createFolderPath_failure_indistinguishable :
    (createFolderPath wFailFirst "A/B").1 = none ∧
    (createFolderPath wFailSecond "A/B").1 = none ∧
    smartFolderCreatorPathCall wFailFirst "A/B" = smartFolderCreatorPathCall wFailSecond "A/B" ∧
    ((createFolderPath wFailFirst "A/B").2.2.filter DriveOp.isCreate)
      = [DriveOp.create "A" "root"] ∧
    ((createFolderPath wFailSecond "A/B").2.2.filter DriveOp.isCreate)
      = [DriveOp.create "A" "root", DriveOp.create "B" "idA"] ∧
    (createFolderPath wFailFirst "A/B").2.1.folders = [] ∧
    (createFolderPath wFailSecond "A/B").2.1.folders = [⟨"idA", "A", "root"⟩] := by
  refine ⟨by decide, by decide, by decide, by decide, by decide, by decide, by decide⟩

/-- C7 (amended): when `createFolderPath` fails partway (a remote create
call fails or returns no id at some segment), it returns bare `null` —
discarding which segment failed and which segments were already created —
and `SmartFolderCreatorTool._call` reports one generic
`FOLDER_CREATION_FAILED` result that depends only on the requested path, so
callers cannot distinguish "partially created, failed at segment N" from
"path never existed". -/
theorem createFolderPath_failure_generic (w : DriveWorld) (path : String)
    (h : (createFolderPath w path).1 = none) :
    smartFolderCreatorPathCall w path
      = CreatorPathResult.failure "FOLDER_CREATION_FAILED" path
          ("Could not create folder path: " ++ path) := by
  simp [smartFolderCreatorPathCall, h]

/-- Witness for the amended C7 at the concrete world `wFailFirst`. -/
theorem createFolderPath_failure_generic_witness :
    smartFolderCreatorPathCall wFailFirst "A/B"
      = CreatorPathResult.failure "FOLDER_CREATION_FAILED" "A/B"
          ("Could not create folder path: " ++ "A/B") :=
  createFolderPath_failure_generic wFailFirst "A/B" rfl

/-! ## Tool dispatch layer (smart-tools.ts)

`HierarchicalFolderNavigatorTool._call` and `SmartFolderFinderTool._call`.
Each `_call` body runs inside `try { … } catch`, and each
`return JSON.stringify(result) + TOOL_ARGS_PREFIX + JSON.stringify(params)`
site is modelled as a `structured` output carrying the result object's data
and the parameter echo, while the `catch` branches return a plain
``Error …: ${error}`` string.  Thrown exceptions inside the body are the
`Except.error` values of the oracle; the cache side effects of `_call`
(`clearExpiredCache`, `setCacheEntry`, both total functions modelled above)
do not influence the returned value and are not threaded here. -/

/-- The `operation` enum of `HierarchicalFolderNavigatorSchema`. -/
inductive NavOperation where
  | listRoot
  | listSubfolders
  | listContents
  | getFolderStructure
deriving DecidableEq

/-- The parameters of `HierarchicalFolderNavigatorTool._call` (after schema
defaults). -/
structure NavParams where
  operation : NavOperation
  parentFolderName : Option String
  parentFolderId : Option String
  includeFiles : Bool
  maxDepth : Nat
  sortBy : String
  maxResults : Nat
  searchInShared : Bool
  includeTrashed : Bool
deriving DecidableEq

/-- The result objects of the navigator's return sites, one constructor per
`return JSON.stringify(result) …` statement. -/
inductive NavPayload where
  | rootList (folders : List DriveFolder) (message : String)
  | subfoldersNotFound (parentFolderName : String)
  | subfolders (parentFolderId : String) (folders : List DriveFolder) (message : String)
  | contentsNotFound (parentFolderName : String)
  | contents (folderId : String) (shown folders files : List DriveFolder) (message : String)
  | folderStructure (folders : List DriveFolder)
  | sharedFiles (files : List DriveFolder) (message : String)
  | sharedFilesError (message : String)
deriving DecidableEq

/-- What the navigator's `_call` returns: a structured result-plus-echo
string, or the plain `catch` string. -/
inductive ToolOutput where
  | structured (payload : NavPayload) (paramsEcho : NavParams)
  | plain (message : String)
deriving DecidableEq

/-- Whether an output is a structured result object (with parameter echo)
rather than a plain error string. -/
def ToolOutput.isStructured : ToolOutput → Bool
  | .structured _ _ => true
  | .plain _ => false

/-- The `q` expression of `listRootFolders`. -/
def listRootQuery (includeTrashed : Bool) : String :=
  addTrashedFilter (folderMimeClause ++ " and " ++ sq ++ "root" ++ sq ++ " in parents")
    includeTrashed

/-- The root-folder listing request shared by `listRootFolders` and
`getFolderStructure` (which re-reads `rootData.folders`). -/
def listRootFoldersData (oracle : DriveOracle) (params : NavParams) :
    Except String (List DriveFolder) :=
  (oracle (listRootQuery params.includeTrashed)).map (fun rd => rd.getD [])

/-- `listRootFolders`. -/
def listRootFolders (oracle : DriveOracle) (params : NavParams) : Except String ToolOutput :=
  (listRootFoldersData oracle params).map (fun folders =>
    ToolOutput.structured
      (NavPayload.rootList folders
        ("Found " ++ toString folders.length ++ " folders in root"))
      params)

/-- The `q` expression of `listSubfolders`. -/
def subfoldersQuery (parentId : String) (includeTrashed : Bool) : String :=
  addTrashedFilter (folderMimeClause ++ " and " ++ sq ++ parentId ++ sq ++ " in parents")
    includeTrashed

/-- The subfolder listing of `listSubfolders` once the parent id is known. -/
def listSubfoldersWithParent (oracle : DriveOracle) (params : NavParams) (parentId : String) :
    Except String ToolOutput :=
  (oracle (subfoldersQuery parentId params.includeTrashed)).map (fun rd =>
    let folders := rd.getD []
    ToolOutput.structured
      (NavPayload.subfolders parentId folders
        ("Found " ++ toString folders.length ++ " subfolders"))
      params)

/-- `listSubfolders` — parent id directly, or resolved by an exact
`findFolderByName` (structured not-found result when absent), or
`throw new Error('Required parentFolderId or parentFolderName')`. -/
def listSubfolders (oracle : DriveOracle) (params : NavParams) : Except String ToolOutput :=
  match params.parentFolderId with
  | some pid => listSubfoldersWithParent oracle params pid
  | none =>
    match params.parentFolderName with
    | some pname =>
      match oracle (findFolderByNameQuery pname true params.includeTrashed) with
      | Except.error e => Except.error e
      | Except.ok rd =>
        match rd.getD [] with
        | [] => Except.ok (ToolOutput.structured (NavPayload.subfoldersNotFound pname) params)
        | f :: _ => listSubfoldersWithParent oracle params f.id
    | none => Except.error "Required parentFolderId or parentFolderName"

/-- The `q` expression of `listFolderContents`. -/
def contentsQuery (folderId : String) (includeTrashed : Bool) : String :=
  addTrashedFilter (sq ++ folderId ++ sq ++ " in parents") includeTrashed

/-- The content listing of `listFolderContents` once the folder id is
known: contents split into folders and files by mime type. -/
def listContentsWithFolder (oracle : DriveOracle) (params : NavParams) (folderId : String) :
    Except String ToolOutput :=
  (oracle (contentsQuery folderId params.includeTrashed)).map (fun rd =>
    let contents := rd.getD []
    let folders := contents.filter (fun item => item.mimeType == folderMimeType)
    let files := contents.filter (fun item => item.mimeType != folderMimeType)
    ToolOutput.structured
      (NavPayload.contents folderId (if params.includeFiles then contents else folders)
        folders files
        ("Folder contains " ++ toString folders.length ++ " folders and "
          ++ toString files.length ++ " files"))
      params)

/-- `searchInSharedFiles` — has its own `try`/`catch`, so even a thrown
remote error becomes a structured failure result. -/
def searchInSharedFiles (oracle : DriveOracle) (params : NavParams) :
    Except String ToolOutput :=
  match oracle (searchInSharedFilesQuery params.parentFolderName) with
  | Except.error e =>
    Except.ok (ToolOutput.structured
      (NavPayload.sharedFilesError ("Error searching shared files: " ++ e)) params)
  | Except.ok rd =>
    Except.ok (ToolOutput.structured
      (NavPayload.sharedFiles (rd.getD [])
        ("Found " ++ toString (rd.getD []).length ++ " shared files"))
      params)

/-- `listFolderContents`. -/
def listFolderContents (oracle : DriveOracle) (params : NavParams) :
    Except String ToolOutput :=
  if params.searchInShared then searchInSharedFiles oracle params
  else
    match params.parentFolderId with
    | some fid => listContentsWithFolder oracle params fid
    | none =>
      match params.parentFolderName with
      | some pname =>
        match oracle (findFolderByNameQuery pname true params.includeTrashed) with
        | Except.error e => Except.error e
        | Except.ok rd =>
          match rd.getD [] with
          | [] => Except.ok (ToolOutput.structured (NavPayload.contentsNotFound pname) params)
          | f :: _ => listContentsWithFolder oracle params f.id
      | none => Except.error "Required parentFolderId or parentFolderName"

/-- `getFolderStructure` — calls `listRootFolders` and re-shapes its
folder list. -/
def getFolderStructure (oracle : DriveOracle) (params : NavParams) :
    Except String ToolOutput :=
  (listRootFoldersData oracle params).map (fun folders =>
    ToolOutput.structured (NavPayload.folderStructure folders) params)

/-- The `switch (params.operation)` body of
`HierarchicalFolderNavigatorTool._call` (the `default: throw` arm is
unreachable for the closed operation enum). -/
def hierarchicalNavigatorBody (oracle : DriveOracle) (params : NavParams) :
    Except String ToolOutput :=
  match params.operation with
  | NavOperation.listRoot => listRootFolders oracle params
  | NavOperation.listSubfolders => listSubfolders oracle params
  | NavOperation.listContents => listFolderContents oracle params
  | NavOperation.getFolderStructure => getFolderStructure oracle params

/-- `HierarchicalFolderNavigatorTool._call` — the body wrapped in
`try`/`catch`; a caught exception becomes the plain string
``Error in hierarchical navigation: ${error}``. -/
def hierarchicalNavigatorCall (oracle : DriveOracle) (params : NavParams) : ToolOutput :=
  match hierarchicalNavigatorBody oracle params with
  | Except.ok out => out
  | Except.error e => ToolOutput.plain ("Error in hierarchical navigation: " ++ e)

/-- The parameters of `SmartFolderFinderTool._call` (after schema
defaults). -/
structure FinderParams where
  folderName : String
  exactMatch : Bool
  parentFolderId : Option String
  parentFolderName : Option String
  maxResults : Nat
  useFullTextSearch : Bool
  includeTrashed : Bool
deriving DecidableEq

/-- An element of the finder's `enhancedFolders`: the found folder plus
`path`, `fullPath` and the search method tag. -/
structure EnhancedFolder where
  base : DriveFolder
  path : String
  fullPath : String
  searchMethod : String
deriving DecidableEq

/-- What the finder's `_call` returns: the structured
success/failure result object with parameter echo, or the plain `catch`
string. -/
inductive FinderOutput where
  | structured (success : Bool) (folders : List EnhancedFolder) (count : Nat)
      (searchQuery searchMethod : String) (exactMatch : Bool) (paramsEcho : FinderParams)
  | plain (message : String)
deriving DecidableEq

/-- Whether a finder output is a structured result object. -/
def FinderOutput.isStructured : FinderOutput → Bool
  | .structured .. => true
  | .plain _ => false

/-- The parent-constraint resolution at the top of
`SmartFolderFinderTool._call`: a supplied parent id, or an exact
`findFolderByName` on the parent name (no constraint when it finds
nothing), or no constraint at all. -/
def smartFolderFinderResolveParent (oracle : DriveOracle) (params : FinderParams) :
    Except String String :=
  match params.parentFolderId with
  | some pid => Except.ok (" and " ++ sq ++ pid ++ sq ++ " in parents")
  | none =>
    match params.parentFolderName with
    | some pname =>
      match oracle (findFolderByNameQuery pname true params.includeTrashed) with
      | Except.error e => Except.error e
      | Except.ok rd =>
        match rd.getD [] with
        | [] => Except.ok ""
        | f :: _ => Except.ok (" and " ++ sq ++ f.id ++ sq ++ " in parents")
    | none => Except.ok ""

/-- One element of the finder's `enhancedFolders` map: `path` from
`buildFolderPath` over the full folder listing (with iteration budget
`fuel`; `none` = that walk did not finish), `fullPath` appending the
folder's own name when it has a parent. -/
def enhanceFolder (fuel : Nat) (allFolders : List DriveFolder) (searchMethod : String)
    (folder : DriveFolder) : Option EnhancedFolder :=
  (buildFolderPath fuel folder.id allFolders).map (fun p =>
    ⟨folder, p,
     match folder.parents with
     | some (_ :: _) => p ++ "/" ++ folder.name
     | _ => folder.name,
     searchMethod⟩)

/-- The `try` body of `SmartFolderFinderTool._call`: resolve the parent
constraint, run `searchFoldersWithFallback`, and on matches fetch the full
folder listing and build the enhanced structured result; on zero matches
return the structured failure result.  The outer `Option` is the
`buildFolderPath` iteration budget (`none` = the path walk inside the
enhancement never finished). -/
def smartFolderFinderBody (oracle : DriveOracle) (fuel : Nat) (params : FinderParams) :
    Option (Except String FinderOutput) :=
  match smartFolderFinderResolveParent oracle params with
  | Except.error e => some (Except.error e)
  | Except.ok parentConstraint =>
    match (searchFoldersWithFallback oracle params.folderName parentConstraint
        params.maxResults params.exactMatch params.useFullTextSearch
        params.includeTrashed).1 with
    | Except.error e => some (Except.error e)
    | Except.ok sr =>
      match sr.files with
      | [] =>
        some (Except.ok (FinderOutput.structured false [] 0 params.folderName
          sr.searchMethod params.exactMatch params))
      | _ =>
        match oracle (addTrashedFilter folderMimeClause params.includeTrashed) with
        | Except.error e => some (Except.error e)
        | Except.ok rd =>
          match sr.files.mapM (enhanceFolder fuel (rd.getD []) sr.searchMethod) with
          | none => none
          | some enhanced =>
            some (Except.ok (FinderOutput.structured true enhanced enhanced.length
              params.folderName sr.searchMethod params.exactMatch params))

/-- `SmartFolderFinderTool._call` — the body wrapped in `try`/`catch`; a
caught exception becomes the plain string
``Error searching folders: ${error}``. -/
def smartFolderFinderCall (oracle : DriveOracle) (fuel : Nat) (params : FinderParams) :
    Option FinderOutput :=
  match smartFolderFinderBody oracle fuel params with
  | none => none
  | some (Except.error e) => some (FinderOutput.plain ("Error searching folders: " ++ e))
  | some (Except.ok out) => some out

/-! ### C8 helper lemmas: every normal completion of a tool body is a
structured result object. -/

theorem listRootFolders_ok_structured (oracle : DriveOracle) (params : NavParams)
    (out : ToolOutput) (h : listRootFolders oracle params = Except.ok out) :
    out.isStructured = true := by
  cases ho : oracle (listRootQuery params.includeTrashed) with
  | error e => simp [listRootFolders, listRootFoldersData, Except.map, ho] at h
  | ok rd =>
    simp [listRootFolders, listRootFoldersData, Except.map, ho] at h
    rw [← h]
    rfl

theorem listSubfoldersWithParent_ok_structured (oracle : DriveOracle) (params : NavParams)
    (pid : String) (out : ToolOutput)
    (h : listSubfoldersWithParent oracle params pid = Except.ok out) :
    out.isStructured = true := by
  cases ho : oracle (subfoldersQuery pid params.includeTrashed) with
  | error e => simp [listSubfoldersWithParent, Except.map, ho] at h
  | ok rd =>
    simp [listSubfoldersWithParent, Except.map, ho] at h
    rw [← h]
    rfl

theorem listSubfolders_ok_structured (oracle : DriveOracle) (params : NavParams)
    (out : ToolOutput) (h : listSubfolders oracle params = Except.ok out) :
    out.isStructured = true := by
  unfold listSubfolders at h
  cases hpid : params.parentFolderId with
  | some pid =>
    rw [hpid] at h
    exact listSubfoldersWithParent_ok_structured oracle params pid out h
  | none =>
    rw [hpid] at h
    cases hpn : params.parentFolderName with
    | none => rw [hpn] at h; simp at h
    | some pname =>
      rw [hpn] at h
      simp only [] at h
      cases ho : oracle (findFolderByNameQuery pname true params.includeTrashed) with
      | error e => rw [ho] at h; simp at h
      | ok rd =>
        rw [ho] at h
        simp only [] at h
        cases hrd : rd.getD [] with
        | nil =>
          rw [hrd] at h
          simp at h
          rw [← h]
          rfl
        | cons f fs =>
          rw [hrd] at h
          exact listSubfoldersWithParent_ok_structured oracle params f.id out h

theorem listContentsWithFolder_ok_structured (oracle : DriveOracle) (params : NavParams)
    (fid : String) (out : ToolOutput)
    (h : listContentsWithFolder oracle params fid = Except.ok out) :
    out.isStructured = true := by
  cases ho : oracle (contentsQuery fid params.includeTrashed) with
  | error e => simp [listContentsWithFolder, Except.map, ho] at h
  | ok rd =>
    simp [listContentsWithFolder, Except.map, ho] at h
    rw [← h]
    rfl

theorem searchInSharedFiles_ok_structured (oracle : DriveOracle) (params : NavParams)
    (out : ToolOutput) (h : searchInSharedFiles oracle params = Except.ok out) :
    out.isStructured = true := by
  unfold searchInSharedFiles at h
  cases ho : oracle (searchInSharedFilesQuery params.parentFolderName) with
  | error e => rw [ho] at h; simp at h; rw [← h]; rfl
  | ok rd => rw [ho] at h; simp at h; rw [← h]; rfl

theorem listFolderContents_ok_structured (oracle : DriveOracle) (params : NavParams)
    (out : ToolOutput) (h : listFolderContents oracle params = Except.ok out) :
    out.isStructured = true := by
  unfold listFolderContents at h
  by_cases hshared : params.searchInShared = true
  · rw [hshared] at h
    simp at h
    exact searchInSharedFiles_ok_structured oracle params out h
  · have hsf : params.searchInShared = false := by
      cases hb : params.searchInShared
      · rfl
      · exact absurd hb hshared
    rw [hsf] at h
    simp only [Bool.false_eq_true, if_false] at h
    cases hpid : params.parentFolderId with
    | some fid =>
      rw [hpid] at h
      exact listContentsWithFolder_ok_structured oracle params fid out h
    | none =>
      rw [hpid] at h
      cases hpn : params.parentFolderName with
      | none => rw [hpn] at h; simp at h
      | some pname =>
        rw [hpn] at h
        simp only [] at h
        cases ho : oracle (findFolderByNameQuery pname true params.includeTrashed) with
        | error e => rw [ho] at h; simp at h
        | ok rd =>
          rw [ho] at h
          simp only [] at h
          cases hrd : rd.getD [] with
          | nil =>
            rw [hrd] at h
            simp at h
            rw [← h]
            rfl
          | cons f fs =>
            rw [hrd] at h
            exact listContentsWithFolder_ok_structured oracle params f.id out h

theorem getFolderStructure_ok_structured (oracle : DriveOracle) (params : NavParams)
    (out : ToolOutput) (h : getFolderStructure oracle params = Except.ok out) :
    out.isStructured = true := by
  cases ho : oracle (listRootQuery params.includeTrashed) with
  | error e => simp [getFolderStructure, listRootFoldersData, Except.map, ho] at h
  | ok rd =>
    simp [getFolderStructure, listRootFoldersData, Except.map, ho] at h
    rw [← h]
    rfl

theorem hierarchicalNavigatorBody_ok_structured (oracle : DriveOracle) (params : NavParams)
    (out : ToolOutput) (h : hierarchicalNavigatorBody oracle params = Except.ok out) :
    out.isStructured = true := by
  unfold hierarchicalNavigatorBody at h
  cases hop : params.operation with
  | listRoot => rw [hop] at h; exact listRootFolders_ok_structured oracle params out h
  | listSubfolders => rw [hop] at h; exact listSubfolders_ok_structured oracle params out h
  | listContents => rw [hop] at h; exact listFolderContents_ok_structured oracle params out h
  | getFolderStructure =>
    rw [hop] at h
    exact getFolderStructure_ok_structured oracle params out h

theorem smartFolderFinderBody_ok_structured (oracle : DriveOracle) (fuel : Nat)
    (fparams : FinderParams) (out : FinderOutput)
    (h : smartFolderFinderBody oracle fuel fparams = some (Except.ok out)) :
    out.isStructured = true := by
  unfold smartFolderFinderBody at h
  cases hp : smartFolderFinderResolveParent oracle fparams with
  | error e => rw [hp] at h; simp at h
  | ok parentConstraint =>
    rw [hp] at h
    simp only [] at h
    cases hs : (searchFoldersWithFallback oracle fparams.folderName parentConstraint
        fparams.maxResults fparams.exactMatch fparams.useFullTextSearch
        fparams.includeTrashed).1 with
    | error e => rw [hs] at h; simp at h
    | ok sr =>
      rw [hs] at h
      simp only [] at h
      cases hf : sr.files with
      | nil =>
        rw [hf] at h
        simp at h
        rw [← h]
        rfl
      | cons f fs =>
        rw [hf] at h
        simp only [] at h
        cases ho : oracle (addTrashedFilter folderMimeClause fparams.includeTrashed) with
        | error e => rw [ho] at h; simp at h
        | ok rd =>
          rw [ho] at h
          simp only [] at h
          cases hm : (f :: fs).mapM (enhanceFolder fuel (rd.getD []) sr.searchMethod) with
          | none => rw [hm] at h; simp at h
          | some enhanced =>
            rw [hm] at h
            simp at h
            rw [← h]
            rfl

/-! ### C8 -/

/-- An oracle every request of which throws a transport error. -/
def oracleBoom : DriveOracle := fun _ => Except.error "network failure"

/-- Navigator parameters: a plain `listRoot` with schema defaults. -/
def navListRootParams : NavParams :=
  ⟨NavOperation.listRoot, none, none, false, 1, "name", 50, false, false⟩

/-- Navigator parameters: `listSubfolders` with neither a parent id nor a
parent name. -/
def navSubfoldersNoParent : NavParams :=
  ⟨NavOperation.listSubfolders, none, none, false, 1, "name", 50, false, false⟩

/-- C8 counterexample: with a remote that throws, the navigator's `_call`
does not throw but returns the plain string
`Error in hierarchical navigation: network failure` — not a structured
success/failure object. -/
theorem navigator_plain_error_counterexample :
    hierarchicalNavigatorCall oracleBoom navListRootParams
      = ToolOutput.plain ("Error in hierarchical navigation: " ++ "network failure") ∧
    (hierarchicalNavigatorCall oracleBoom navListRootParams).isStructured = false := by
  exact ⟨rfl, rfl⟩

/-- C8 (amended): for every remote behavior (including thrown transport
errors), the dispatcher-level `_call` of `HierarchicalFolderNavigatorTool`
and `SmartFolderFinderTool` never propagates an exception: whenever the
body completes normally, `_call` returns that value and it is a structured
success/failure object; whenever the body throws, `_call` catches the
exception and returns a plain `Error …: message` string — a plain string,
not a structured object. -/
theorem toolCall_never_throws (oracle : DriveOracle) (params : NavParams)
    (fparams : FinderParams) (fuel : Nat) :
    (∀ e, hierarchicalNavigatorBody oracle params = Except.error e →
        hierarchicalNavigatorCall oracle params
          = ToolOutput.plain ("Error in hierarchical navigation: " ++ e)) ∧
    (∀ out, hierarchicalNavigatorBody oracle params = Except.ok out →
        hierarchicalNavigatorCall oracle params = out ∧ out.isStructured = true) ∧
    (∀ e, smartFolderFinderBody oracle fuel fparams = some (Except.error e) →
        smartFolderFinderCall oracle fuel fparams
          = some (FinderOutput.plain ("Error searching folders: " ++ e))) ∧
    (∀ out, smartFolderFinderBody oracle fuel fparams = some (Except.ok out) →
        smartFolderFinderCall oracle fuel fparams = some out ∧
        out.isStructured = true) := by
  refine ⟨?_, ?_, ?_, ?_⟩
  · intro e he
    unfold hierarchicalNavigatorCall
    rw [he]
  · intro out hout
    constructor
    · unfold hierarchicalNavigatorCall
      rw [hout]
    · exact hierarchicalNavigatorBody_ok_structured oracle params out hout
  · intro e he
    unfold smartFolderFinderCall
    rw [he]
  · intro out hout
    constructor
    · unfold smartFolderFinderCall
      rw [hout]
    · exact smartFolderFinderBody_ok_structured oracle fuel fparams out hout

/-- Witness for the amended C8: the in-body
`throw new Error('Required parentFolderId or parentFolderName')` of
`listSubfolders` is caught and returned as the plain error string. -/
theorem toolCall_never_throws_witness :
    hierarchicalNavigatorCall oracleBoom navSubfoldersNoParent
      = ToolOutput.plain
          ("Error in hierarchical navigation: "
            ++ "Required parentFolderId or parentFolderName") :=
  (toolCall_never_throws oracleBoom navSubfoldersNoParent
    ⟨"x", false, none, none, 10, true, false⟩ 0).1
    "Required parentFolderId or parentFolderName" rfl

end GoogleDriveSpec
